import Mathlib

/-
Verification of the booking/liquidation core of the house_renter repository.

Dates are embedded as day ordinals (an `Int`, days since 1970-01-01): the
source stores dates as ISO `YYYY-MM-DD` strings and compares them as pandas
Timestamps, which is exactly the total order on day ordinals.  `mkDate`
converts a civil date to its ordinal with the standard days-from-civil
formula, and `daysInMonth`/`isLeapYear` reproduce the calendar-month
boundaries that `pd.Timestamp(f"{y}-{m}-01") + pd.offsets.MonthEnd(0)`
computes in the liquidation page.

Monetary amounts are embedded as `ℚ`: the source holds them as floats but
every claim under scrutiny is about which rows are summed and with which
formula, not about rounding.
-/

namespace HouseRenter

/-- Gregorian leap-year rule, as used by the underlying calendar library. -/
def isLeapYear (y : Int) : Bool :=
  y % 4 == 0 && (y % 100 != 0 || y % 400 == 0)

/-- Number of days of month `m` of year `y` (the last day of the month,
which `pd.offsets.MonthEnd(0)` rolls to in the liquidation page). -/
def daysInMonth (y : Int) (m : Int) : Int :=
  if m = 2 then (if isLeapYear y then 29 else 28)
  else if m = 4 ∨ m = 6 ∨ m = 9 ∨ m = 11 then 30
  else 31

/-- Day ordinal of the civil date `y-m-d` (days since 1970-01-01), the
standard days-from-civil conversion.  Only used to build concrete dates and
month boundaries; all comparisons in the embedded code are on ordinals. -/
def mkDate (y m d : Int) : Int :=
  let y2 := if m ≤ 2 then y - 1 else y
  let era := (if 0 ≤ y2 then y2 else y2 - 399) / 400
  let yoe := y2 - era * 400
  let mp := if 2 < m then m - 3 else m + 9
  let doy := (153 * mp + 2) / 5 + d - 1
  let doe := yoe * 365 + yoe / 4 - yoe / 100 + doy
  era * 146097 + doe - 719468

/-- First day of the month, `pd.Timestamp(f"{year}-{month}-01")` in
pages/06 line 350. -/
def monthStart (y m : Int) : Int := mkDate y m 1

/-- Last day of the month, `month_start + pd.offsets.MonthEnd(0)` in
pages/06 line 351. -/
def monthEnd (y m : Int) : Int := mkDate y m (daysInMonth y m)

/-- A row of the `bookings` table (data_manager.py BOOKINGS_COLS).  The
database id, currency label, source label, channel commission and notes are
never read by the logic under verification and are omitted. -/
structure Booking where
  property_id : Nat
  tenant_name : String
  start_date : Int
  end_date : Int
  rent_amount : ℚ
deriving DecidableEq, Repr

/-- A row of the `expenses` table (data_manager.py EXPENSES_COLS); the id,
category, currency and description columns are never read by the logic
under verification and are omitted. -/
structure Expense where
  property_id : Nat
  expense_date : Int
  amount : ℚ
deriving DecidableEq, Repr

/-- A row of the `properties` table (data_manager.py PROPERTIES_COLS). -/
structure Property where
  id : Nat
  name : String
  address : String
  owner : String
deriving DecidableEq, Repr

/-- Half-open overlap test of pages/05_Reserva_rapida lines 320-321 and
393-394: `max(start1, start2) < min(end1, end2)`. -/
def overlapsHalfOpen (s1 e1 s2 e2 : Int) : Bool :=
  decide (max s1 s2 < min e1 e2)

/-- Manual-date conflict loop of pages/05_Reserva_rapida lines 313-324:
filter the selected property's bookings, then report a conflict as soon as
one of them overlaps the candidate half-open interval. -/
def reservaRapidaConflict (pid : Nat) (s e : Int) (bookings : List Booking) : Bool :=
  (bookings.filter fun b => b.property_id == pid).any
    fun b => overlapsHalfOpen s e b.start_date b.end_date

/-- Existing-booking filter of pages/05_quick_booking lines 40-43:
`(property_id == pid) & (start_date <= end) & (end_date >= start)`.
Note both comparisons are inclusive. -/
def quickBookingExistingOverlaps (pid : Nat) (s e : Int) (bookings : List Booking) :
    List Booking :=
  bookings.filter fun b =>
    b.property_id == pid && decide (b.start_date ≤ e) && decide (s ≤ b.end_date)

/-- Book-Property button handler of pages/05_quick_booking lines 57-83:
reject when `end_date <= start_date`, otherwise call `add_booking`
directly (no conflict check of any kind happens on this path).  `none`
models the request dying in `st.error`; `some` is the stored table after
the insert. -/
def quickBookingSubmit (pid : Nat) (tenant : String) (s e : Int) (rent : ℚ)
    (stored : List Booking) : Option (List Booking) :=
  if e ≤ s then none
  else some (stored ++ [⟨pid, tenant, s, e, rent⟩])

/-- Date validity of pages/05_Reserva_rapida lines 304-310: `dates_valid`
is cleared when `end <= start` or when `start < today`. -/
def reservaRapidaDatesValid (s e today : Int) : Bool :=
  !(decide (e ≤ s)) && !(decide (s < today))

/-- Confirm button handler of pages/05_Reserva_rapida lines 367-421: reload
the latest bookings, rerun the half-open conflict check against them, abort
(`none`) on a conflict, and only otherwise call `add_booking`. -/
def reservaRapidaConfirm (pid : Nat) (tenant : String) (s e : Int) (rent : ℚ)
    (latest : List Booking) : Option (List Booking) :=
  if reservaRapidaConflict pid s e latest then none
  else some (latest ++ [⟨pid, tenant, s, e, rent⟩])

/-- The `confirm_yes` branch of telegram_wizards/new_booking lines 205-235:
`dm.add_booking` is called with the collected data unconditionally — no
date-order validation and no conflict check exist on this path. -/
def telegramConfirmYes (pid : Nat) (tenant : String) (s e : Int) (rent : ℚ)
    (stored : List Booking) : List Booking :=
  stored ++ [⟨pid, tenant, s, e, rent⟩]

/-- Date-order validation of the add-booking form, pages/02_bookings lines
111-113: validation fails only when `end_date < start_date`, so the form
accepts `end_date == start_date`. -/
def bookingsFormDatesAccepted (s e : Int) : Bool :=
  !(decide (e < s))

/-- Stable insertion by `start_date` (helper for `sortByStart`). -/
def insertByStart (b : Booking) : List Booking → List Booking
  | [] => [b]
  | c :: rest =>
    if b.start_date ≤ c.start_date then b :: c :: rest
    else c :: insertByStart b rest

/-- Ascending sort by `start_date`, the `sort_values(by='start_date')` of
data_manager.py line 368 and the `sort_values('start_date')` of the
occupancy pages. -/
def sortByStart (l : List Booking) : List Booking :=
  l.foldr insertByStart []

/-- The cursor walk of data_manager.get_first_available_date_for_property
lines 370-389: return the cursor at the first gap before a booking,
otherwise advance it to `max(cursor, end_date)` (no +1: `end_date` is the
check-out day). -/
def firstAvailWalk (cursor : Int) : List Booking → Int
  | [] => cursor
  | b :: rest =>
    if cursor < b.start_date then cursor
    else firstAvailWalk (max cursor b.end_date) rest

/-- data_manager.get_first_available_date_for_property lines 341-389: the
caller's clock (`pd.to_datetime('today')`) is passed in as `today`. -/
def get_first_available_date_for_property (pid : Nat) (bookings : List Booking)
    (today : Int) : Int :=
  let property_bookings := bookings.filter fun b => b.property_id == pid
  if property_bookings.isEmpty then today
  else firstAvailWalk today (sortByStart property_bookings)

/-- Specification-side restatement of claim C4 and spec section 4.3: sort
ascending by `start_date` and walk with a cursor initialized to the
reference date; an empty list leaves the cursor at the reference date. -/
def specCursorWalk (cursor : Int) : List Booking → Int
  | [] => cursor
  | b :: rest =>
    if cursor < b.start_date then cursor
    else specCursorWalk (max cursor b.end_date) rest

/-- Specification-side first-available-date function, written from the
claim's words (no special empty case: the walk on an empty list already
returns the reference date). -/
def firstAvailableDateSpec (pid : Nat) (bookings : List Booking) (ref : Int) : Int :=
  specCursorWalk ref (sortByStart (bookings.filter fun b => b.property_id == pid))

/-- `n` consecutive day ordinals starting at `s` (loop helper). -/
def intRangeAux (s : Int) : Nat → List Int
  | 0 => []
  | n + 1 => s :: intRangeAux (s + 1) n

/-- The occupied-date loop of data_manager.get_occupied_dates lines
427-436: `while current < end: add current; current += 1 day`.  The loop
body runs exactly `(end - start)` times (zero when `end <= start`). -/
def occupiedRange (s e : Int) : List Int :=
  intRangeAux s (e - s).toNat

/-- data_manager.get_occupied_dates lines 394-436: union over the
property's bookings of the half-open date range of each booking.  The
Python set is embedded as the list of collected dates; all claims about it
are membership claims. -/
def get_occupied_dates (pid : Nat) (bookings : List Booking) : List Int :=
  (bookings.filter fun b => b.property_id == pid).foldr
    (fun b acc => occupiedRange b.start_date b.end_date ++ acc) []

/-- The `pd.date_range(start, end)` of calculate_monthly_occupancy
(pages/01_Ocupacion lines 439-452): INCLUSIVE of both endpoints, hence
`end - start + 1` days when `start <= end`. -/
def dateRangeInclusive (s e : Int) : List Int :=
  intRangeAux s (e - s + 1).toNat

/-- Current-booking filter of the occupancy pages
(pages/01_occupancy_overview lines 54-56, pages/01_Ocupacion lines 59-61):
`(start_date <= today) & (end_date >= today)` over the property's bookings
sorted by start date.  Note the second comparison is inclusive. -/
def currentBookingToday (pid : Nat) (today : Int) (bookings : List Booking) :
    List Booking :=
  (sortByStart (bookings.filter fun b => b.property_id == pid)).filter
    fun b => decide (b.start_date ≤ today) && decide (today ≤ b.end_date)

/-- A property is displayed "Occupied" exactly when the current-booking
filter is non-empty (pages/01_occupancy_overview lines 61-64). -/
def isOccupiedToday (pid : Nat) (today : Int) (bookings : List Booking) : Bool :=
  !(currentBookingToday pid today bookings).isEmpty

/-- Liquidation grouping key, the `liquidation_type` radio of pages/06
lines 274-293: by owner name or by property id. -/
inductive LiqSelector where
  | porPropietario (owner : String)
  | porPropiedad (pid : Nat)
deriving DecidableEq, Repr

/-- Property-id resolution of pages/06 lines 353-364: all ids whose owner
column equals the identifier, or the single selected property id. -/
def resolvePropertyIds (sel : LiqSelector) (properties : List Property) : List Nat :=
  match sel with
  | .porPropietario owner => (properties.filter fun p => p.owner == owner).map (·.id)
  | .porPropiedad pid => [pid]

/-- Booking mask of pages/06 lines 373-378: property id in the resolved
set and `end_date` within `[month_start, month_end]` (both inclusive). -/
def includedBooking (pids : List Nat) (y m : Int) (b : Booking) : Bool :=
  decide (b.property_id ∈ pids) &&
    decide (monthStart y m ≤ b.end_date) && decide (b.end_date ≤ monthEnd y m)

/-- Expense mask of pages/06 lines 384-389: property id in the resolved
set and `expense_date` within `[month_start, month_end]`. -/
def includedExpense (pids : List Nat) (y m : Int) (x : Expense) : Bool :=
  decide (x.property_id ∈ pids) &&
    decide (monthStart y m ≤ x.expense_date) && decide (x.expense_date ≤ monthEnd y m)

/-- `filtered_bookings['rent_amount'].sum()` of pages/06 line 393. -/
def totalIncome (pids : List Nat) (y m : Int) (bookings : List Booking) : ℚ :=
  ((bookings.filter (includedBooking pids y m)).map Booking.rent_amount).sum

/-- `filtered_expenses['amount'].sum()` of pages/06 line 394. -/
def totalExpensesOf (pids : List Nat) (y m : Int) (expenses : List Expense) : ℚ :=
  ((expenses.filter (includedExpense pids y m)).map Expense.amount).sum

/-- The results dictionary of pages/06 lines 402-414.  The `type` and
`identifier` keys are carried by the selector at the call site and are not
repeated here; the four monetary fields and the timestamp are the payload
every claim is about. -/
structure LiquidationResult where
  year : Int
  month : Int
  commission_percentage : ℚ
  total_income : ℚ
  total_expenses : ℚ
  commission_amount : ℚ
  owner_net : ℚ
  calculation_timestamp : String
deriving DecidableEq, Repr

/-- Liquidation calculation block of pages/06 lines 349-414: resolve the
property ids; with no matching property the code warns and clears the
stored result (`st.session_state.liquidation_results = None`, lines
366-368), embedded as `none`; otherwise filter bookings by checkout month,
filter expenses by expense month, and fill the results dictionary with
`commission = income * (pct / 100)` and
`net = income - expenses - commission` (lines 393-414).  `ts` is the
caller's clock, `datetime.now().isoformat()` of line 413. -/
def compute_liquidation (y m : Int) (sel : LiqSelector) (pct : ℚ)
    (properties : List Property) (bookings : List Booking) (expenses : List Expense)
    (ts : String) : Option LiquidationResult :=
  let pids := resolvePropertyIds sel properties
  if pids.isEmpty then none
  else
    some ⟨y, m, pct,
      totalIncome pids y m bookings,
      totalExpensesOf pids y m expenses,
      totalIncome pids y m bookings * (pct / 100),
      totalIncome pids y m bookings - totalExpensesOf pids y m expenses -
        totalIncome pids y m bookings * (pct / 100),
      ts⟩

/-- The four monetary outputs of a liquidation, the fields claim C9
quantifies over. -/
def liqTotals (r : LiquidationResult) : ℚ × ℚ × ℚ × ℚ :=
  (r.total_income, r.total_expenses, r.commission_amount, r.owner_net)

/-- Fixture: the spec section 8 booking "Ana", 2024-06-01 to 2024-06-08
(checkout), 700 for property 1. -/
def anaBooking : Booking :=
  ⟨1, "Ana", mkDate 2024 6 1, mkDate 2024 6 8, 700⟩

/-- Fixture: one stored June booking for property 1, used to exhibit a
candidate that genuinely conflicts. -/
def junStored : List Booking :=
  [⟨1, "Ana", mkDate 2024 6 1, mkDate 2024 6 10, 700⟩]

/-- Fixture: owner Smith owns properties 1 and 2 (spec section 8
liquidation scenario). -/
def smithProperties : List Property :=
  [⟨1, "Prop One", "Addr 1", "Smith"⟩, ⟨2, "Prop Two", "Addr 2", "Smith"⟩]

/-- Fixture: property 1 has a booking ending 2024-06-30 with rent 500. -/
def smithBookings : List Booking :=
  [⟨1, "Tenant A", mkDate 2024 6 23, mkDate 2024 6 30, 500⟩]

/-- Fixture: property 2 has an expense dated 2024-06-15 of 50. -/
def smithExpenses : List Expense :=
  [⟨2, mkDate 2024 6 15, 50⟩]

/-- Pointwise reading of the booking mask as one proposition. -/
lemma includedBooking_decide (pids : List Nat) (y m : Int) (b : Booking) :
    includedBooking pids y m b =
      decide (b.property_id ∈ pids ∧ monthStart y m ≤ b.end_date ∧
        b.end_date ≤ monthEnd y m) := by
  by_cases h1 : b.property_id ∈ pids <;>
    by_cases h2 : monthStart y m ≤ b.end_date <;>
    by_cases h3 : b.end_date ≤ monthEnd y m <;>
    simp [includedBooking, h1, h2, h3]

/-- Pointwise reading of the expense mask as one proposition. -/
lemma includedExpense_decide (pids : List Nat) (y m : Int) (x : Expense) :
    includedExpense pids y m x =
      decide (x.property_id ∈ pids ∧ monthStart y m ≤ x.expense_date ∧
        x.expense_date ≤ monthEnd y m) := by
  by_cases h1 : x.property_id ∈ pids <;>
    by_cases h2 : monthStart y m ≤ x.expense_date <;>
    by_cases h3 : x.expense_date ≤ monthEnd y m <;>
    simp [includedExpense, h1, h2, h3]

/-- Membership in a run of consecutive day ordinals. -/
lemma mem_intRangeAux (d : Int) : ∀ (n : Nat) (s : Int),
    d ∈ intRangeAux s n ↔ s ≤ d ∧ d < s + n := by
  intro n
  induction n with
  | zero => intro s; simp [intRangeAux]
  | succ n ih => intro s; simp [intRangeAux, ih]; omega

/-- The occupied-date loop collects exactly the half-open range. -/
lemma mem_occupiedRange (d s e : Int) : d ∈ occupiedRange s e ↔ s ≤ d ∧ d < e := by
  rw [occupiedRange, mem_intRangeAux]
  omega

/-- Membership in the concatenation of the per-booking ranges. -/
lemma mem_collectRanges (d : Int) (l : List Booking) :
    d ∈ l.foldr (fun b acc => occupiedRange b.start_date b.end_date ++ acc) [] ↔
      ∃ b ∈ l, d ∈ occupiedRange b.start_date b.end_date := by
  induction l with
  | nil => simp
  | cons b rest ih => simp [ih]

/-- The two cursor walks (source and specification restatement) agree. -/
lemma firstAvailWalk_eq_specCursorWalk (l : List Booking) :
    ∀ cursor : Int, firstAvailWalk cursor l = specCursorWalk cursor l := by
  induction l with
  | nil => intro c; rfl
  | cons b rest ih =>
    intro c
    by_cases hc : c < b.start_date <;> simp [firstAvailWalk, specCursorWalk, hc, ih]

/-- The cursor walk never moves the cursor backwards. -/
lemma le_firstAvailWalk (l : List Booking) : ∀ cursor : Int,
    cursor ≤ firstAvailWalk cursor l := by
  induction l with
  | nil => intro c; exact le_refl c
  | cons b rest ih =>
    intro c
    by_cases hc : c < b.start_date
    · simp [firstAvailWalk, hc]
    · simp only [firstAvailWalk, hc, if_false]
      exact le_trans (le_max_left c b.end_date) (ih _)

/-- The Reserva Rapida conflict loop reports a conflict exactly when some
stored booking of the property overlaps the candidate in the half-open
sense. -/
lemma reservaRapidaConflict_iff (pid : Nat) (s e : Int) (bookings : List Booking) :
    reservaRapidaConflict pid s e bookings = true ↔
      ∃ b ∈ bookings, b.property_id = pid ∧
        max s b.start_date < min e b.end_date := by
  simp [reservaRapidaConflict, overlapsHalfOpen, List.any_eq_true, List.mem_filter,
    beq_iff_eq]

/-- Claim C1: the adjacency failing input.  For the candidate
`[2024-06-08, 2024-06-10)` against Ana's existing booking ending
2024-06-08: the half-open predicate reports no overlap, the Reserva Rapida
conflict loop reports no conflict, yet the quick-booking page's
existing-booking filter (inclusive comparisons) flags the adjacent booking
as overlapping. -/
theorem quick_booking_adjacent_conflict :
    overlapsHalfOpen (mkDate 2024 6 8) (mkDate 2024 6 10)
        anaBooking.start_date anaBooking.end_date = false ∧
    reservaRapidaConflict 1 (mkDate 2024 6 8) (mkDate 2024 6 10) [anaBooking] = false ∧
    quickBookingExistingOverlaps 1 (mkDate 2024 6 8) (mkDate 2024 6 10) [anaBooking]
      = [anaBooking] := by
  decide

/-- Claim C6: the missing-final-check failing input.  The candidate
`[2024-06-05, 2024-06-12)` genuinely conflicts with the stored booking
`[2024-06-01, 2024-06-10)`, yet the quick-booking button handler and the
telegram confirm branch both persist it; only the Reserva Rapida confirm
handler re-checks and aborts. -/
theorem booking_paths_final_check :
    reservaRapidaConflict 1 (mkDate 2024 6 5) (mkDate 2024 6 12) junStored = true ∧
    quickBookingSubmit 1 "Bob" (mkDate 2024 6 5) (mkDate 2024 6 12) 900 junStored
      = some (junStored ++ [⟨1, "Bob", mkDate 2024 6 5, mkDate 2024 6 12, 900⟩]) ∧
    telegramConfirmYes 1 "Carla" (mkDate 2024 6 5) (mkDate 2024 6 12) 900 junStored
      = junStored ++ [⟨1, "Carla", mkDate 2024 6 5, mkDate 2024 6 12, 900⟩] ∧
    reservaRapidaConfirm 1 "Bob" (mkDate 2024 6 5) (mkDate 2024 6 12) 900 junStored
      = none := by
  decide

/-- Claim C7: the zero-length failing input.  A candidate with
`start_date == end_date == 2024-06-10` passes the Manage Bookings form
validation (which only rejects `end < start`) and is persisted unchecked
by the telegram wizard, while the quick-booking page and the Reserva
Rapida page both reject it. -/
theorem zero_length_booking_validation :
    bookingsFormDatesAccepted (mkDate 2024 6 10) (mkDate 2024 6 10) = true ∧
    quickBookingSubmit 1 "T" (mkDate 2024 6 10) (mkDate 2024 6 10) 100 [] = none ∧
    reservaRapidaDatesValid (mkDate 2024 6 10) (mkDate 2024 6 10) (mkDate 2024 6 1)
      = false ∧
    telegramConfirmYes 1 "T" (mkDate 2024 6 10) (mkDate 2024 6 10) 100 []
      = [⟨1, "T", mkDate 2024 6 10, mkDate 2024 6 10, 100⟩] := by
  decide

/-- Claim C8: the checkout-day failing input.  On 2024-06-08, the checkout
day of Ana's booking, the occupancy pages' current-booking filter reports
the property occupied and the monthly occupancy date range counts the day,
although the half-open rule excludes it — as `get_occupied_dates` itself
does. -/
theorem checkout_day_occupancy :
    isOccupiedToday 1 (mkDate 2024 6 8) [anaBooking] = true ∧
    mkDate 2024 6 8 ∈ dateRangeInclusive anaBooking.start_date anaBooking.end_date ∧
    ¬(anaBooking.start_date ≤ mkDate 2024 6 8 ∧
        mkDate 2024 6 8 < anaBooking.end_date) ∧
    mkDate 2024 6 8 ∉ get_occupied_dates 1 [anaBooking] := by
  decide

/-- Claim C3 counterexample: requesting the liquidation of owner
"NoSuchOwner" (who owns no property) yields no result record at all — the
stored result is cleared to `None` — rather than a result with all totals
zero. -/
theorem empty_group_yields_none :
    compute_liquidation 2024 6 (.porPropietario "NoSuchOwner") 20
      smithProperties smithBookings smithExpenses "2024-07-01T00:00:00" = none := by
  decide

/-- Spec section 8 scenario, evaluated: owner Smith, June 2024, commission
20 percent yields income 500, expenses 50, commission 100, owner net 350. -/
theorem smith_liquidation_scenario :
    compute_liquidation 2024 6 (.porPropietario "Smith") 20
      smithProperties smithBookings smithExpenses "2024-07-01T00:00:00"
      = some ⟨2024, 6, 20, 500, 50, 100, 350, "2024-07-01T00:00:00"⟩ := by
  have hp : resolvePropertyIds (.porPropietario "Smith") smithProperties = [1, 2] := by
    decide
  have hb : smithBookings.filter (includedBooking [1, 2] 2024 6) = smithBookings := by
    decide
  have he : smithExpenses.filter (includedExpense [1, 2] 2024 6) = smithExpenses := by
    decide
  simp only [compute_liquidation, hp, totalIncome, totalExpensesOf,
    List.isEmpty_cons, Bool.false_eq_true, if_false]
  rw [hb, he]
  simp only [smithBookings, smithExpenses, List.map_cons, List.map_nil,
    List.sum_cons, List.sum_nil]
  norm_num

/-- Claim C2: for a month, a resolved non-empty property set, a commission
percentage in [0, 100] and any bookings and expenses, the liquidation
includes exactly the bookings whose checkout date lies in the calendar
month window and whose property is in the resolved set, and exactly the
expenses whose date lies in the window with property in the set;
total_income and total_expenses are the corresponding sums,
commission_amount is total_income * pct / 100, and owner_net is
total_income - total_expenses - commission_amount. -/
theorem compute_liquidation_month_totals (y m : Int) (sel : LiqSelector) (pct : ℚ)
    (props : List Property) (bookings : List Booking) (expenses : List Expense)
    (ts : String) (h0 : 0 ≤ pct) (h1 : pct ≤ 100)
    (h : resolvePropertyIds sel props ≠ []) :
    ∃ r, compute_liquidation y m sel pct props bookings expenses ts = some r ∧
      r.total_income = ((bookings.filter fun b =>
          decide (b.property_id ∈ resolvePropertyIds sel props ∧
            monthStart y m ≤ b.end_date ∧ b.end_date ≤ monthEnd y m)).map
          Booking.rent_amount).sum ∧
      r.total_expenses = ((expenses.filter fun x =>
          decide (x.property_id ∈ resolvePropertyIds sel props ∧
            monthStart y m ≤ x.expense_date ∧ x.expense_date ≤ monthEnd y m)).map
          Expense.amount).sum ∧
      r.commission_amount = r.total_income * pct / 100 ∧
      r.owner_net = r.total_income - r.total_expenses - r.commission_amount := by
  have hne : (resolvePropertyIds sel props).isEmpty = false := by
    cases hx : resolvePropertyIds sel props with
    | nil => exact absurd hx h
    | cons a l => rfl
  have hfb : includedBooking (resolvePropertyIds sel props) y m = fun b =>
      decide (b.property_id ∈ resolvePropertyIds sel props ∧
        monthStart y m ≤ b.end_date ∧ b.end_date ≤ monthEnd y m) :=
    funext (includedBooking_decide _ y m)
  have hfe : includedExpense (resolvePropertyIds sel props) y m = fun x =>
      decide (x.property_id ∈ resolvePropertyIds sel props ∧
        monthStart y m ≤ x.expense_date ∧ x.expense_date ≤ monthEnd y m) :=
    funext (includedExpense_decide _ y m)
  have hval : compute_liquidation y m sel pct props bookings expenses ts =
      some ⟨y, m, pct,
        totalIncome (resolvePropertyIds sel props) y m bookings,
        totalExpensesOf (resolvePropertyIds sel props) y m expenses,
        totalIncome (resolvePropertyIds sel props) y m bookings * (pct / 100),
        totalIncome (resolvePropertyIds sel props) y m bookings -
          totalExpensesOf (resolvePropertyIds sel props) y m expenses -
          totalIncome (resolvePropertyIds sel props) y m bookings * (pct / 100),
        ts⟩ := by
    simp only [compute_liquidation, hne, Bool.false_eq_true, if_false]
  refine ⟨_, hval, ?_, ?_, ?_, ?_⟩
  · show totalIncome (resolvePropertyIds sel props) y m bookings = _
    rw [totalIncome, hfb]
  · show totalExpensesOf (resolvePropertyIds sel props) y m expenses = _
    rw [totalExpensesOf, hfe]
  · show totalIncome (resolvePropertyIds sel props) y m bookings * (pct / 100) = _
    rw [mul_div_assoc]
  · rfl

/-- Witness for claim C2 at the spec section 8 scenario: owner Smith, June
2024, commission 20, with the Smith fixtures. -/
theorem compute_liquidation_month_totals_witness :
    ∃ r, compute_liquidation 2024 6 (.porPropietario "Smith") 20
        smithProperties smithBookings smithExpenses "2024-07-01T00:00:00" = some r := by
  obtain ⟨r, hr, -, -, -, -⟩ :=
    compute_liquidation_month_totals 2024 6 (.porPropietario "Smith") 20
      smithProperties smithBookings smithExpenses "2024-07-01T00:00:00"
      (by norm_num) (by norm_num) (by decide)
  exact ⟨r, hr⟩

/-- Claim C3 as amended: when the group identifier resolves to no matching
property, the liquidation calculation produces no result record at all
(the stored result is cleared, shown with a warning); no exception is
raised, and no zero-total record is computed. -/
theorem compute_liquidation_empty_group (y m : Int) (sel : LiqSelector) (pct : ℚ)
    (props : List Property) (bookings : List Booking) (expenses : List Expense)
    (ts : String) (h : resolvePropertyIds sel props = []) :
    compute_liquidation y m sel pct props bookings expenses ts = none := by
  simp [compute_liquidation, h]

/-- Witness for the amended claim C3: owner "Nobody" owns none of the
Smith properties. -/
theorem compute_liquidation_empty_group_witness :
    compute_liquidation 2024 6 (.porPropietario "Nobody") 15
      smithProperties [] [] "2024-07-02T00:00:00" = none :=
  compute_liquidation_empty_group 2024 6 (.porPropietario "Nobody") 15
    smithProperties [] [] "2024-07-02T00:00:00" (by decide)

/-- Claim C4: the first-available-date computation of data_manager equals
the specification walk (filter the property's bookings, sort ascending by
start_date, walk with a cursor initialized to the reference date,
returning at the first gap, else advancing to max(cursor, end_date)), and
returns the reference date itself for an empty booking list. -/
theorem first_available_date_matches_spec :
    (∀ (pid : Nat) (bookings : List Booking) (ref : Int),
        get_first_available_date_for_property pid bookings ref =
          firstAvailableDateSpec pid bookings ref) ∧
      ∀ (pid : Nat) (ref : Int),
        get_first_available_date_for_property pid ([] : List Booking) ref = ref := by
  constructor
  · intro pid bookings ref
    simp only [get_first_available_date_for_property, firstAvailableDateSpec]
    cases hx : bookings.filter fun b => b.property_id == pid with
    | nil => simp [sortByStart, specCursorWalk]
    | cons b l =>
      simp only [List.isEmpty_cons, Bool.false_eq_true, if_false,
        firstAvailWalk_eq_specCursorWalk]
  · intro pid ref
    rfl

/-- Claim C5: `get_occupied_dates` collects exactly the dates d with
start_date <= d < end_date of some booking of the property; in particular
a property with no bookings contributes no date. -/
theorem occupied_dates_characterization (pid : Nat) (bookings : List Booking)
    (d : Int) :
    d ∈ get_occupied_dates pid bookings ↔
      ∃ b ∈ bookings, b.property_id = pid ∧ b.start_date ≤ d ∧ d < b.end_date := by
  rw [get_occupied_dates, mem_collectRanges]
  constructor
  · rintro ⟨b, hb, hd⟩
    rw [List.mem_filter] at hb
    rw [mem_occupiedRange] at hd
    exact ⟨b, hb.1, by simpa using hb.2, hd.1, hd.2⟩
  · rintro ⟨b, hb, hpid, hd1, hd2⟩
    exact ⟨b, List.mem_filter.2 ⟨hb, by simp [hpid]⟩,
      (mem_occupiedRange d _ _).2 ⟨hd1, hd2⟩⟩

/-- Claim C9: with the clock made explicit, the four monetary outputs of
the liquidation depend only on the other inputs: recomputation at any two
timestamps yields identical totals. -/
theorem compute_liquidation_timestamp_independent (y m : Int) (sel : LiqSelector)
    (pct : ℚ) (props : List Property) (bookings : List Booking)
    (expenses : List Expense) (ts1 ts2 : String) :
    Option.map liqTotals (compute_liquidation y m sel pct props bookings expenses ts1) =
      Option.map liqTotals
        (compute_liquidation y m sel pct props bookings expenses ts2) := by
  cases h : (resolvePropertyIds sel props).isEmpty <;>
    simp [compute_liquidation, h, liqTotals]

/-- Claim C10: the first available date is never before the reference
date: the cursor starts at the reference date and only ever advances. -/
theorem first_available_date_ge_reference (pid : Nat) (bookings : List Booking)
    (today : Int) :
    today ≤ get_first_available_date_for_property pid bookings today := by
  simp only [get_first_available_date_for_property]
  split
  · exact le_refl today
  · exact le_firstAvailWalk _ today

end HouseRenter
